import Mathlib

/-
Verification of the browser-side form controller in
src/manual_polling_tool_web/static/js/main.js.

The embedding models, directly from the source:
  * the provider registry (the constant object called definitions);
  * createCheckboxes and the population loop;
  * setDefaultDates (dates are modelled as day counts since 1970-01-01,
    formatted with the proleptic-Gregorian conversion that toISOString
    performs; subtracting 7 from the day count models
    sevenDaysAgo.setDate(today.getDate() - 7));
  * the tab switching handler;
  * the form submit handler: payload assembly, the fetch outcome handling,
    and displayResults (JSON values are modelled by an inductive type, and
    the JavaScript property accesses, truthiness tests and stringification
    the handler performs are modelled explicitly; a property access on null
    is an exception and is modelled in an error monad, since the handler
    catches it).
-/

namespace ManualPollingTool

/-! ## JSON values and the JavaScript operations the handler performs -/

/-- A decoded JSON value, as produced by response.json(). Numbers are
modelled as integers (every number appearing in the claims is one). -/
inductive Json where
  | null : Json
  | bool (b : Bool) : Json
  | num (n : Int) : Json
  | str (s : String) : Json
  | arr (elems : List Json) : Json
  | obj (fields : List (String × Json)) : Json

/-- JavaScript truthiness of a JSON value. -/
def truthy : Json → Bool
  | .null => false
  | .bool b => b
  | .num n => n != 0
  | .str s => s != ""
  | .arr _ => true
  | .obj _ => true

/-- First binding of a key in an object literal. -/
def lookupField : List (String × Json) → String → Option Json
  | [], _ => none
  | (k, v) :: rest, key => if k = key then some v else lookupField rest key

/-- JavaScript property access on a decoded JSON value: on null it throws a
TypeError, on an object it looks the key up, on arrays and strings only the
length property is populated, and on the remaining primitives every access
yields undefined (modelled as none). -/
def getProp : Json → String → Except String (Option Json)
  | .null, _ => .error "TypeError: Cannot read properties of null"
  | .obj fields, key => .ok (lookupField fields key)
  | .arr elems, key =>
      if key = "length" then .ok (some (.num (Int.ofNat elems.length))) else .ok none
  | .str s, key =>
      if key = "length" then .ok (some (.num (Int.ofNat s.length))) else .ok none
  | .bool _, _ => .ok none
  | .num _, _ => .ok none

/-- Truthiness of a possibly-undefined value. -/
def truthyOpt : Option Json → Bool
  | none => false
  | some v => truthy v

mutual

/-- JavaScript String() coercion of a JSON value, as used by the Error
constructor and by template literals. -/
def jsToString : Json → String
  | .null => "null"
  | .bool true => "true"
  | .bool false => "false"
  | .num n => toString n
  | .str s => s
  | .arr elems => jsArrToString elems
  | .obj _ => "[object Object]"

/-- Array.prototype.toString: elements joined by commas, null rendered
as the empty string. -/
def jsArrToString : List Json → String
  | [] => ""
  | [Json.null] => ""
  | [x] => jsToString x
  | Json.null :: rest => "," ++ jsArrToString rest
  | x :: rest => jsToString x ++ "," ++ jsArrToString rest

end

/-- String() coercion of a possibly-undefined value. -/
def optToMsg : Option Json → String
  | none => "undefined"
  | some v => jsToString v

/-- The .length read performed on a truthy (hence non-null) value by the
row-count expression. -/
def getLength : Json → Option Json
  | .arr elems => some (.num (Int.ofNat elems.length))
  | .str s => some (.num (Int.ofNat s.length))
  | .obj fields => lookupField fields "length"
  | .null => none
  | .bool _ => none
  | .num _ => none

/-! ## JSON.stringify with a two-space indent, as used by displayResults -/

/-- Escape one character for a JSON string literal. -/
def escapeChar (c : Char) : String :=
  if c = Char.ofNat 34 then "\\\""
  else if c = Char.ofNat 92 then "\\\\"
  else if c = Char.ofNat 10 then "\\n"
  else if c = Char.ofNat 9 then "\\t"
  else if c = Char.ofNat 13 then "\\r"
  else String.singleton c

/-- A quoted JSON string literal. -/
def quoteStr (s : String) : String :=
  "\"" ++ String.join (s.data.map escapeChar) ++ "\""

/-- The indentation JSON.stringify uses at nesting depth d with indent 2. -/
def indentStr (d : Nat) : String :=
  String.mk (List.replicate (2 * d) (Char.ofNat 32))

mutual

/-- JSON.stringify(v, null, 2) at nesting depth d. -/
def stringifyAt : Json → Nat → String
  | .null, _ => "null"
  | .bool true, _ => "true"
  | .bool false, _ => "false"
  | .num n, _ => toString n
  | .str s, _ => quoteStr s
  | .arr [], _ => "[]"
  | .arr (x :: xs), d =>
      "[\n" ++ stringifyItems (x :: xs) (d + 1) ++ "\n" ++ indentStr d ++ "]"
  | .obj [], _ => "\x7b\x7d"
  | .obj (f :: fs), d =>
      "\x7b\n" ++ stringifyFields (f :: fs) (d + 1) ++ "\n" ++ indentStr d ++ "\x7d"

/-- Array elements, one per line. -/
def stringifyItems : List Json → Nat → String
  | [], _ => ""
  | [x], d => indentStr d ++ stringifyAt x d
  | x :: y :: rest, d =>
      indentStr d ++ stringifyAt x d ++ ",\n" ++ stringifyItems (y :: rest) d

/-- Object fields, one per line. -/
def stringifyFields : List (String × Json) → Nat → String
  | [], _ => ""
  | [(k, v)], d => indentStr d ++ quoteStr k ++ ": " ++ stringifyAt v d
  | (k, v) :: g :: rest, d =>
      indentStr d ++ quoteStr k ++ ": " ++ stringifyAt v d ++ ",\n" ++
        stringifyFields (g :: rest) d

end

/-- JSON.stringify(v, null, 2). -/
def stringify (j : Json) : String := stringifyAt j 0

/-! ## Checkbox rendering (createCheckboxes and the population loop) -/

/-- One rendered label: the checkbox value, its checked flag, and the text
node appended after the checkbox. -/
structure LabelC where
  value : String
  checked : Bool
  text : String
deriving Repr, DecidableEq

/-- The contents createCheckboxes writes into a container: the strong
header followed by the labels. -/
structure PanelContent where
  header : String
  labels : List LabelC
deriving Repr, DecidableEq

/-- The page, as far as checkbox containers are concerned: element ids
paired with their contents. -/
abbrev Dom := List (String × PanelContent)

/-- document.getElementById restricted to checkbox containers: the first
element with the given id, none when absent. -/
def getElementById : Dom → String → Option PanelContent
  | [], _ => none
  | (k, v) :: rest, i => if k = i then some v else getElementById rest i

/-- The global replace of underscores by spaces in the display text. -/
def underscoresToSpaces (s : String) : String :=
  String.mk (s.data.map (fun c => if c = Char.ofNat 95 then Char.ofNat 32 else c))

/-- type.charAt(0).toUpperCase() + type.slice(1). -/
def capitalizeFirst (s : String) : String :=
  match s.data with
  | [] => ""
  | c :: rest => String.mk (c.toUpper :: rest)

/-- containerId.endsWith("-dimensions"). -/
def strEndsWith (s suf : String) : Bool :=
  suf.data.isSuffixOf s.data

/-- The heading word chosen from the container id. -/
def checkboxType (containerId : String) : String :=
  if strEndsWith containerId "-dimensions" then "dimensions" else "metrics"

/-- One label built in the items.forEach loop: value is the item, checked
defaults to true, and the text node is a space followed by the item with
underscores replaced by spaces. -/
def mkLabel (item : String) : LabelC :=
  ⟨item, true, " " ++ underscoresToSpaces item⟩

/-- The contents createCheckboxes leaves in the container: the header
assigned via innerHTML followed by one label per item. -/
def mkContents (containerId : String) (items : List String) : PanelContent :=
  ⟨"<strong>" ++ capitalizeFirst (checkboxType containerId) ++ ":</strong>",
    items.map mkLabel⟩

/-- Replace the contents of the first element with the given id, the
effect of mutating the element getElementById returned. -/
def setContents : Dom → String → PanelContent → Dom
  | [], _, _ => []
  | (k, v) :: rest, i, c =>
      if k = i then (k, c) :: rest else (k, v) :: setContents rest i c

/-- createCheckboxes: looks the container up, returns leaving the page
unchanged when it is absent, and otherwise replaces its contents. The
error monad records that no step of it can throw. -/
def createCheckboxesE (containerId : String) (items : List String) (dom : Dom) :
    Except String Dom :=
  match getElementById dom containerId with
  | none => .ok dom
  | some _ => .ok (setContents dom containerId (mkContents containerId items))

/-- createCheckboxes as a page transformer. -/
def createCheckboxes (containerId : String) (items : List String) (dom : Dom) : Dom :=
  match createCheckboxesE containerId items dom with
  | .ok d => d
  | .error _ => dom

/-- A provider entry of the definitions object. -/
structure ProviderSchema where
  dimensions : List String
  metrics : List String
deriving Repr, DecidableEq

/-- The definitions object: the static registry of providers, verbatim
from the source. -/
def definitions : List (String × ProviderSchema) :=
  [ ("admob",
      ⟨["DATE", "AD_UNIT", "FORMAT", "COUNTRY", "APP", "PLATFORM", "PLACEMENT",
        "AD_SOURCE", "CREATIVE", "BID_TYPE"],
       ["ESTIMATED_EARNINGS", "IMPRESSIONS", "IMPRESSION_RPM", "CLICKS",
        "ACTIVE_VIEW_IMPRESSIONS", "MATCHED_REQUESTS", "SHOW_RATE",
        "CLICK_THROUGH_RATE", "AD_REQUESTS"]⟩),
    ("gam",
      ⟨["date", "ad_unit_name", "ad_unit_id", "parent_ad_unit_id", "country_name",
        "country_criteria_id"],
       ["impressions", "revenue"]⟩),
    ("applovin",
      ⟨["day", "application", "country", "platform", "package_name", "size",
        "zone_id", "ad_type"],
       ["revenue", "views", "impressions", "clicks"]⟩),
    ("chartboost",
      ⟨["day", "app_id", "app_name", "country_code", "platform", "ad_location",
        "ad_type", "campaign_type"],
       ["revenue", "impressions", "clicks", "installs", "ecpm", "cpcv", "ctr",
        "install_rate", "video_completed"]⟩),
    ("facebook",
      ⟨["placement", "country", "day"],
       ["revenue"]⟩),
    ("fyber",
      ⟨["app_id", "spot_id", "day", "country_code", "content_id", "content_name",
        "app_name", "distributor_name", "content_categories"],
       ["ad_requests", "impressions", "fill_rate", "clicks", "ctr", "ecpm",
        "revenue"]⟩),
    ("hyprmx",
      ⟨["placement", "country"],
       []⟩),
    ("inmobi",
      ⟨["country", "countryId", "placementId", "placementName"],
       ["earnings"]⟩) ]

/-- The population loop: for every provider of the registry, render its
dimensions panel and then its metrics panel. -/
def populateAll (dom : Dom) : Dom :=
  definitions.foldl
    (fun d pc =>
      createCheckboxes (pc.1 ++ "-metrics") pc.2.metrics
        (createCheckboxes (pc.1 ++ "-dimensions") pc.2.dimensions d))
    dom

/-! ## Default date seeding (setDefaultDates) -/

/-- Proleptic-Gregorian conversion of a day count since 1970-01-01 into
year, month and day, as toISOString performs it. -/
def civilFromDays (z : Nat) : Nat × Nat × Nat :=
  let e := z + 719468
  let era := e / 146097
  let doe := e % 146097
  let yoe := (doe - doe / 1460 + doe / 36524 - doe / 146096) / 365
  let y := yoe + era * 400
  let doy := doe - (365 * yoe + yoe / 4 - yoe / 100)
  let mp := (5 * doy + 2) / 153
  let d := doy - (153 * mp + 2) / 5 + 1
  let m := if mp < 10 then mp + 3 else mp - 9
  (if m ≤ 2 then y + 1 else y, m, d)

/-- Two-digit zero padding. -/
def pad2 (n : Nat) : String :=
  if n < 10 then "0" ++ toString n else toString n

/-- Four-digit zero padding for the year. -/
def pad4 (n : Nat) : String :=
  if n < 10 then "000" ++ toString n
  else if n < 100 then "00" ++ toString n
  else if n < 1000 then "0" ++ toString n
  else toString n

/-- date.toISOString().split("T")[0]: the YYYY-MM-DD rendering of a day
count. -/
def formatDate (day : Nat) : String :=
  match civilFromDays day with
  | (y, m, d) => pad4 y ++ "-" ++ pad2 m ++ "-" ++ pad2 d

/-- An input or select element of a form: id, type attribute and value. -/
structure FormInput where
  id : String
  type : String
  value : String
deriving Repr, DecidableEq

/-- Substring containment over character lists. -/
def containsSub : List Char → List Char → Bool
  | [], pat => pat.isEmpty
  | c :: rest, pat => pat.isPrefixOf (c :: rest) || containsSub rest pat

/-- id.includes(pat). -/
def strIncludes (s pat : String) : Bool :=
  containsSub s.data pat.data

/-- The body of the querySelectorAll forEach in setDefaultDates applied to
one input; the selector restricts it to date-typed inputs. -/
def seedOne (today : Nat) (inp : FormInput) : FormInput :=
  if inp.type = "date" then
    if strIncludes inp.id "-end-date" then { inp with value := formatDate today }
    else if strIncludes inp.id "-start-date" then
      { inp with value := formatDate (today - 7) }
    else inp
  else inp

/-- setDefaultDates over the page, parametrised by the current day count. -/
def setDefaultDates (today : Nat) (inputs : List FormInput) : List FormInput :=
  inputs.map (seedOne today)

/-! ## Tab switching -/

/-- One tab pane: its id and whether it carries the active class. -/
structure Pane where
  id : String
  active : Bool
deriving Repr, DecidableEq

/-- The click handler for the button whose dataset.tab is t: every pane
becomes active exactly when its id equals t. -/
def clickTab (t : String) (panes : List Pane) : List Pane :=
  panes.map (fun p => ⟨p.id, p.id == t⟩)

/-- A sequence of tab-button clicks, earliest first. -/
def clickSeq (ts : List String) (panes : List Pane) : List Pane :=
  ts.foldl (fun ps t => clickTab t ps) panes

/-- The number of panes carrying the active class. -/
def activeCount (panes : List Pane) : Nat :=
  (panes.filter (fun p => p.active)).length

/-- The number of panes whose id is t. -/
def idCount (panes : List Pane) (t : String) : Nat :=
  (panes.filter (fun p => p.id == t)).length

/-! ## Payload assembly (the first half of the submit handler) -/

/-- A value stored in the payload object: input values are strings, the
dimensions and metrics entries are arrays of strings. -/
inductive PayloadVal where
  | str (s : String)
  | arr (elems : List String)
deriving Repr, DecidableEq

/-- The payload object, keys in insertion order. -/
abbrev Payload := List (String × PayloadVal)

/-- Property read on the payload object. -/
def payloadGet : Payload → String → Option PayloadVal
  | [], _ => none
  | (k, v) :: rest, key => if k = key then some v else payloadGet rest key

/-- Whether the payload object already has the key. -/
def hasKey : Payload → String → Bool
  | [], _ => false
  | (k, _) :: rest, key => k = key || hasKey rest key

/-- Overwrite an existing key in place. -/
def setKey : Payload → String → PayloadVal → Payload
  | [], _, _ => []
  | (k, v) :: rest, key, val =>
      if k = key then (key, val) :: setKey rest key val
      else (k, v) :: setKey rest key val

/-- JavaScript object assignment payload[key] = val: update in place when
the key exists, append otherwise. -/
def objInsert (m : Payload) (key : String) (val : PayloadVal) : Payload :=
  if hasKey m key then setKey m key val else m ++ [(key, val)]

/-- Remove the first occurrence of pat from s, the behaviour of
String.prototype.replace with an empty replacement. -/
def removeFirst : List Char → List Char → List Char
  | [], _ => []
  | c :: rest, pat =>
      if pat.isPrefixOf (c :: rest) then (c :: rest).drop pat.length
      else c :: removeFirst rest pat

/-- The global replace of dashes by underscores. -/
def normalizeKey (s : List Char) : List Char :=
  s.map (fun c => if c = Char.ofNat 45 then Char.ofNat 95 else c)

/-- The payload key the handler derives from an input id: remove the first
occurrence of the provider prefix, then replace every dash by an
underscore. -/
def keyOf (provider id : String) : String :=
  String.mk (normalizeKey (removeFirst id.data (provider ++ "-").data))

/-- Modelled from the spec wording, for comparison with keyOf: the key
obtained by stripping the provider prefix from the identifier (when it is
one) and replacing dash separators with underscores. -/
def keySpecStrip (provider id : String) : String :=
  let pat := (provider ++ "-").data
  String.mk (normalizeKey
    (if pat.isPrefixOf id.data then id.data.drop pat.length else id.data))

/-- A checkbox of the dimensions or metrics panel. -/
structure Checkbox where
  value : String
  checked : Bool
deriving Repr, DecidableEq

/-- The values of the checked checkboxes, in order. -/
def checkedValues (boxes : List Checkbox) : List String :=
  (boxes.filter (fun b => b.checked)).map (fun b => b.value)

/-- One iteration of the forEach over form.querySelectorAll("input,
select"): a non-checkbox input contributes its value under the derived
key, a checkbox is skipped. -/
def collectStep (provider : String) (m : Payload) (inp : FormInput) : Payload :=
  if inp.type = "checkbox" then m
  else objInsert m (keyOf provider inp.id) (.str inp.value)

/-- The whole forEach, starting from the empty payload object. -/
def collectInputs (provider : String) (inputs : List FormInput) : Payload :=
  inputs.foldl (collectStep provider) []

/-- The assembled payload: the collected inputs, then the dimensions
entry, then the metrics entry. -/
def buildPayload (provider : String) (inputs : List FormInput)
    (dims mets : List Checkbox) : Payload :=
  objInsert
    (objInsert (collectInputs provider inputs) "dimensions"
      (.arr (checkedValues dims)))
    "metrics" (.arr (checkedValues mets))

/-- The derived keys of the non-checkbox inputs, in document order. -/
def ncKeys (provider : String) (inputs : List FormInput) : List String :=
  (inputs.filter (fun i => !(i.type = "checkbox"))).map (fun i => keyOf provider i.id)

/-! ## The submit handler prologue and the response handling -/

/-- The handler reads the status and results elements by id and writes to
them without a guard; a missing element makes the write throw. The page is
modelled by the list of element ids it contains. -/
def submitPrologue (provider : String) (pageIds : List String) : Except String Unit :=
  if pageIds.contains (provider ++ "-status") then
    if pageIds.contains (provider ++ "-results") then .ok ()
    else .error "TypeError: Cannot set properties of null setting innerHTML"
  else .error "TypeError: Cannot set properties of null setting className"

/-- What the awaited fetch produced: a network-level rejection, or a
response with a status code whose json() either parsed or rejected. -/
inductive FetchOutcome where
  | networkError (message : String) : FetchOutcome
  | response (status : Nat) (body : Except String Json) : FetchOutcome

/-- How one submission ends: the success branch carries the row count
value interpolated into the status text and the result rendered by
displayResults; the catch branch carries the error message. -/
inductive Outcome where
  | success (rowCount : Option Json) (result : Json) : Outcome
  | failure (message : String) : Outcome

/-- response.ok: the status is in the 2xx range extended to 299. -/
def respOk (status : Nat) : Bool :=
  200 ≤ status && status < 300

/-- const data = result.data || result. -/
def computeData (result : Json) (rdata : Option Json) : Json :=
  match rdata with
  | some v => if truthy v then v else result
  | none => result

/-- Array.isArray(data) ? data.length : (data.data ? data.data.length : 0),
with the property reads it performs. -/
def computeRowCount (data : Json) : Except String (Option Json) :=
  match data with
  | .arr elems => .ok (some (.num (Int.ofNat elems.length)))
  | _ =>
      match getProp data "data" with
      | .error m => .error m
      | .ok none => .ok (some (.num 0))
      | .ok (some v) =>
          if truthy v then .ok (getLength v) else .ok (some (.num 0))

/-- The try/catch of the submit handler, from the awaited fetch on: json()
first, then the ok test throwing Error(result.error || generic), then the
row count and the success rendering; every thrown value lands in the catch
branch as a failure message. -/
def pollOutcome (fr : FetchOutcome) : Outcome :=
  match fr with
  | .networkError m => .failure m
  | .response status body =>
      match body with
      | .error m => .failure m
      | .ok result =>
          if respOk status then
            match getProp result "data" with
            | .error m => .failure m
            | .ok rdata =>
                match computeRowCount (computeData result rdata) with
                | .error m => .failure m
                | .ok rc => .success rc result
          else
            match getProp result "error" with
            | .error m => .failure m
            | .ok errv =>
                if truthyOpt errv then .failure (optToMsg errv)
                else .failure ("Server responded with status " ++ toString status)

/-- The nodes displayResults leaves in the results element: the download
link (filename, object-URL content, link text) and the pre block. -/
structure ResultsNode where
  downloadName : String
  downloadContent : String
  linkText : String
  preText : String
deriving Repr, DecidableEq

/-- displayResults container result filename: clears the container, then
appends the link to a blob of the pretty-printed result and a pre with the
same text. -/
def displayResults (result : Json) (filename : String) : ResultsNode :=
  ⟨filename, stringify result, "Download Results (JSON)", stringify result⟩

/-- The per-provider panel after the handler finishes: status class and
text, and the results element contents (none means left empty). -/
structure PanelView where
  statusClass : String
  statusText : String
  results : Option ResultsNode
deriving Repr, DecidableEq

/-- The success status text with the interpolated row count. -/
def successMsg (rc : Option Json) : String :=
  "Polling successful! Fetched " ++ optToMsg rc ++ " rows."

/-- The panel contents once the submission settles: the success branch
writes the success status and renders the results, the catch branch writes
the error status and leaves the results element as cleared. -/
def finalView (provider : String) (fr : FetchOutcome) : PanelView :=
  match pollOutcome fr with
  | .success rc result =>
      ⟨"status success", successMsg rc,
        some (displayResults result (provider ++ "_report.json"))⟩
  | .failure m => ⟨"status error", "Polling failed: " ++ m, none⟩

/-- Whether a JSON value is an array. -/
def isArrJ : Json → Bool
  | .arr _ => true
  | .null => false
  | .bool _ => false
  | .num _ => false
  | .str _ => false
  | .obj _ => false

/-- Whether reading the data property of the value yields something truthy
(a read that throws, that is a read on null, also counts as true so that a
false result guarantees the read is a falsy non-throwing one). -/
def truthyDataField (j : Json) : Bool :=
  match getProp j "data" with
  | .ok o => truthyOpt o
  | .error _ => true

/-! ## Helper lemmas -/

theorem getElementById_setContents (cid : String) (c2 : PanelContent) :
    ∀ (dom : Dom) (c : PanelContent), getElementById dom cid = some c →
      getElementById (setContents dom cid c2) cid = some c2 := by
  intro dom
  induction dom with
  | nil => intro c h; simp [getElementById] at h
  | cons hd tl ih =>
      intro c h
      obtain ⟨k, v⟩ := hd
      by_cases hk : k = cid
      · simp [setContents, getElementById, hk]
      · simp only [getElementById, if_neg hk] at h
        simp only [setContents, if_neg hk, getElementById]
        exact ih c h

theorem setContents_setContents (cid : String) (c : PanelContent) :
    ∀ dom : Dom, setContents (setContents dom cid c) cid c = setContents dom cid c := by
  intro dom
  induction dom with
  | nil => rfl
  | cons hd tl ih =>
      obtain ⟨k, v⟩ := hd
      by_cases hk : k = cid
      · simp [setContents, hk]
      · simp only [setContents, if_neg hk]
        rw [ih]

theorem ids_clickTab (t : String) (ps : List Pane) :
    (clickTab t ps).map Pane.id = ps.map Pane.id := by
  induction ps <;> simp_all [clickTab]

theorem activeCount_clickTab (t : String) (ps : List Pane) :
    activeCount (clickTab t ps) = idCount ps t := by
  induction ps with
  | nil => rfl
  | cons p ps ih =>
      simp only [clickTab, activeCount, idCount, List.map_cons, List.filter_cons] at *
      cases h : (p.id == t) <;> simp [h, ih]

theorem idCount_clickTab (s t : String) (ps : List Pane) :
    idCount (clickTab s ps) t = idCount ps t := by
  induction ps with
  | nil => rfl
  | cons p ps ih =>
      simp only [clickTab, idCount, List.map_cons, List.filter_cons] at *
      cases h : (p.id == t) <;> simp [h, ih]

theorem clickTab_clickTab (s t : String) (ps : List Pane) :
    clickTab t (clickTab s ps) = clickTab t ps := by
  induction ps <;> simp_all [clickTab]

theorem clickSeq_cons (t : String) (ts : List String) (panes : List Pane) :
    clickSeq (t :: ts) panes = clickSeq ts (clickTab t panes) := rfl

theorem clickSeq_eq (last : String) :
    ∀ (ts : List String) (panes : List Pane), ts.getLast? = some last →
      clickSeq ts panes = clickTab last panes := by
  intro ts
  induction ts with
  | nil => intro panes h; simp at h
  | cons t rest ih =>
      intro panes h
      cases rest with
      | nil =>
          simp [List.getLast?] at h
          subst h
          rfl
      | cons r rest2 =>
          rw [clickSeq_cons, ih (clickTab t panes) (by simpa using h)]
          exact clickTab_clickTab t last panes

theorem payloadGet_setKey_self (k : String) (v : PayloadVal) :
    ∀ m : Payload, hasKey m k = true → payloadGet (setKey m k v) k = some v := by
  intro m
  induction m with
  | nil => intro h; simp [hasKey] at h
  | cons e rest ih =>
      intro h
      obtain ⟨k1, v1⟩ := e
      by_cases hk : k1 = k
      · simp [setKey, payloadGet, hk]
      · simp only [hasKey, hk] at h
        simp only [setKey, payloadGet, if_neg hk]
        exact ih (by simpa using h)

theorem payloadGet_append_single (k : String) (v : PayloadVal) :
    ∀ m : Payload, hasKey m k = false → payloadGet (m ++ [(k, v)]) k = some v := by
  intro m
  induction m with
  | nil => intro _; simp [payloadGet]
  | cons e rest ih =>
      intro h
      obtain ⟨k1, v1⟩ := e
      simp only [hasKey] at h
      by_cases hk : k1 = k
      · simp [hk] at h
      · simp only [List.cons_append, payloadGet]
        rw [if_neg hk]
        exact ih (by simpa [hk] using h)

theorem payloadGet_objInsert_self (m : Payload) (k : String) (v : PayloadVal) :
    payloadGet (objInsert m k v) k = some v := by
  unfold objInsert
  cases h : hasKey m k
  · simpa [h] using payloadGet_append_single k v m h
  · simpa [h] using payloadGet_setKey_self k v m h

theorem payloadGet_setKey_other (k k2 : String) (v : PayloadVal) (h : ¬ k2 = k) :
    ∀ m : Payload, payloadGet (setKey m k v) k2 = payloadGet m k2 := by
  intro m
  induction m with
  | nil => rfl
  | cons e rest ih =>
      obtain ⟨k1, v1⟩ := e
      by_cases hk : k1 = k
      · subst hk
        simp only [setKey, if_pos rfl, payloadGet]
        rw [if_neg (fun hh => h hh.symm), if_neg (fun hh => h hh.symm)]
        exact ih
      · simp only [setKey, if_neg hk, payloadGet]
        by_cases h2 : k1 = k2
        · simp [h2]
        · rw [if_neg h2, if_neg h2]
          exact ih

theorem payloadGet_append_single_other (k k2 : String) (v : PayloadVal)
    (h : ¬ k2 = k) :
    ∀ m : Payload, payloadGet (m ++ [(k, v)]) k2 = payloadGet m k2 := by
  intro m
  induction m with
  | nil =>
      simp only [List.nil_append, payloadGet]
      rw [if_neg (fun hh => h hh.symm)]
  | cons e rest ih =>
      obtain ⟨k1, v1⟩ := e
      simp only [List.cons_append, payloadGet]
      by_cases h2 : k1 = k2
      · simp [h2]
      · rw [if_neg h2, if_neg h2]
        exact ih

theorem payloadGet_objInsert_other (m : Payload) (k k2 : String) (v : PayloadVal)
    (h : ¬ k2 = k) : payloadGet (objInsert m k v) k2 = payloadGet m k2 := by
  unfold objInsert
  cases hk : hasKey m k
  · simpa using payloadGet_append_single_other k k2 v h m
  · simpa using payloadGet_setKey_other k k2 v h m

theorem ncKeys_cons (provider : String) (i : FormInput) (rest : List FormInput) :
    ncKeys provider (i :: rest)
      = if i.type = "checkbox" then ncKeys provider rest
        else keyOf provider i.id :: ncKeys provider rest := by
  by_cases h : i.type = "checkbox" <;> simp [ncKeys, List.filter_cons, h]

theorem collect_skip (provider : String) (k : String) :
    ∀ (inputs : List FormInput) (m : Payload), ¬ k ∈ ncKeys provider inputs →
      payloadGet (inputs.foldl (collectStep provider) m) k = payloadGet m k := by
  intro inputs
  induction inputs with
  | nil => intro m _; rfl
  | cons i rest ih =>
      intro m h
      rw [ncKeys_cons] at h
      by_cases hcb : i.type = "checkbox"
      · rw [if_pos hcb] at h
        simpa [collectStep, hcb] using ih m h
      · rw [if_neg hcb] at h
        simp only [List.mem_cons, not_or] at h
        obtain ⟨hne, hrest⟩ := h
        simp only [List.foldl_cons, collectStep, if_neg hcb]
        rw [ih _ hrest]
        exact payloadGet_objInsert_other m _ k _ hne

theorem collect_mem (provider : String) (inp : FormInput)
    (hnc : ¬ inp.type = "checkbox") :
    ∀ (inputs : List FormInput) (m : Payload), inp ∈ inputs →
      (ncKeys provider inputs).Nodup →
      payloadGet (inputs.foldl (collectStep provider) m) (keyOf provider inp.id)
        = some (.str inp.value) := by
  intro inputs
  induction inputs with
  | nil => intro m hmem _; simp at hmem
  | cons i rest ih =>
      intro m hmem hnodup
      rw [List.mem_cons] at hmem
      rcases hmem with heq | hmem
      · subst heq
        rw [ncKeys_cons, if_neg hnc] at hnodup
        have hnotin : ¬ keyOf provider inp.id ∈ ncKeys provider rest :=
          (List.nodup_cons.mp hnodup).1
        simp only [List.foldl_cons, collectStep, if_neg hnc]
        rw [collect_skip provider _ rest _ hnotin]
        exact payloadGet_objInsert_self m _ _
      · by_cases hcb : i.type = "checkbox"
        · rw [ncKeys_cons, if_pos hcb] at hnodup
          simpa [collectStep, hcb] using ih _ hmem hnodup
        · rw [ncKeys_cons, if_neg hcb] at hnodup
          simp only [List.foldl_cons, collectStep, if_neg hcb]
          exact ih _ hmem (List.nodup_cons.mp hnodup).2

theorem mem_ncKeys (provider : String) (inputs : List FormInput) (inp : FormInput)
    (hmem : inp ∈ inputs) (hnc : ¬ inp.type = "checkbox") :
    keyOf provider inp.id ∈ ncKeys provider inputs := by
  simp only [ncKeys, List.mem_map]
  exact ⟨inp, List.mem_filter.mpr ⟨hmem, by simp [hnc]⟩, rfl⟩

theorem removeFirst_pre (l pat : List Char) (h : pat.isPrefixOf l = true) :
    removeFirst l pat = l.drop pat.length := by
  cases l with
  | nil =>
      cases pat with
      | nil => rfl
      | cons c cs => simp [List.isPrefixOf] at h
  | cons c rest => simp [removeFirst, h]

theorem keyOf_eq_spec (provider id : String)
    (h : ((provider ++ "-").data).isPrefixOf id.data = true) :
    keyOf provider id = keySpecStrip provider id := by
  unfold keyOf keySpecStrip
  rw [removeFirst_pre _ _ h]
  have h2 : provider.data ++ [Char.ofNat 45] <+: id.data := by simpa using h
  simp [h2]

theorem truthy_str_of_ne (e : String) (h : ¬ e = "") : truthy (.str e) = true := by
  simp [truthy, h]

theorem pollOutcome_errField (status : Nat) (fields : List (String × Json))
    (e : String) (hbad : respOk status = false)
    (herr : lookupField fields "error" = some (.str e)) (hne : ¬ e = "") :
    pollOutcome (.response status (.ok (.obj fields))) = .failure e := by
  simp [pollOutcome, hbad, getProp, herr, truthyOpt, truthy_str_of_ne e hne,
    optToMsg, jsToString]

theorem pollOutcome_noErrField (status : Nat) (fields : List (String × Json))
    (hbad : respOk status = false) (herr : lookupField fields "error" = none) :
    pollOutcome (.response status (.ok (.obj fields)))
      = .failure ("Server responded with status " ++ toString status) := by
  simp [pollOutcome, hbad, getProp, herr, truthyOpt]

theorem pollOutcome_dataArr (status : Nat) (fields : List (String × Json))
    (rows : List Json) (hok : respOk status = true)
    (hdata : lookupField fields "data" = some (.arr rows)) :
    pollOutcome (.response status (.ok (.obj fields)))
      = .success (some (.num (Int.ofNat rows.length))) (.obj fields) := by
  simp [pollOutcome, hok, getProp, hdata, computeData, truthy, computeRowCount]

theorem pollOutcome_bareArr (status : Nat) (rows : List Json)
    (hok : respOk status = true) :
    pollOutcome (.response status (.ok (.arr rows)))
      = .success (some (.num (Int.ofNat rows.length))) (.arr rows) := by
  simp [pollOutcome, hok, getProp, computeData, computeRowCount]

theorem pollOutcome_flat (status : Nat) (j : Json) (hok : respOk status = true)
    (harr : isArrJ j = false) (hdf : truthyDataField j = false) :
    pollOutcome (.response status (.ok j)) = .success (some (.num 0)) j := by
  cases j with
  | null => simp [truthyDataField, getProp] at hdf
  | arr elems => simp [isArrJ] at harr
  | bool b => simp [pollOutcome, hok, getProp, computeData, computeRowCount]
  | num n => simp [pollOutcome, hok, getProp, computeData, computeRowCount]
  | str s => simp [pollOutcome, hok, getProp, computeData, computeRowCount]
  | obj fields =>
      have hdf2 : truthyOpt (lookupField fields "data") = false := by
        simpa [truthyDataField, getProp] using hdf
      cases hl : lookupField fields "data" with
      | none => simp [pollOutcome, hok, getProp, hl, computeData, computeRowCount]
      | some v =>
          rw [hl] at hdf2
          have hv : truthy v = false := by simpa [truthyOpt] using hdf2
          simp [pollOutcome, hok, getProp, hl, computeData, computeRowCount, hv]

/-! ## Claims -/

/-- Claim C1, counterexample: a submission answered with HTTP 200 and the
body containing an error string field is handled by the success branch
(status class "status success", zero-row success message, results
rendered), not treated as a failure displaying that string: the handler
consults the error field only after the ok test has failed. -/
theorem c1_counterexample :
    finalView "admob" (.response 200 (.ok (.obj [("error", .str "quota exceeded")])))
      = ⟨"status success", "Polling successful! Fetched 0 rows.",
          some (displayResults (.obj [("error", .str "quota exceeded")])
            "admob_report.json")⟩ ∧
    ¬ ("Polling successful! Fetched 0 rows." = "Polling failed: quota exceeded") :=
  ⟨rfl, by decide⟩

/-- Claim C1, amended: only a non-2xx response consults the body's error
field: a non-2xx response whose body is an object with a non-empty error
string displays that string as the failure message, while a 2xx body that
contains an error string field (and nothing else) is treated as a plain
success with zero rows and rendered results. -/
theorem c1_error_field_only_non2xx (provider : String) (status status2 : Nat)
    (fields : List (String × Json)) (e : String)
    (hbad : respOk status = false) (hok2 : respOk status2 = true)
    (herr : lookupField fields "error" = some (.str e)) (hne : ¬ e = "") :
    finalView provider (.response status (.ok (.obj fields)))
      = ⟨"status error", "Polling failed: " ++ e, none⟩ ∧
    finalView provider (.response status2 (.ok (.obj [("error", .str e)])))
      = ⟨"status success", "Polling successful! Fetched 0 rows.",
          some (displayResults (.obj [("error", .str e)])
            (provider ++ "_report.json"))⟩ := by
  constructor
  · unfold finalView
    rw [pollOutcome_errField status fields e hbad herr hne]
  · unfold finalView
    rw [pollOutcome_flat status2 (.obj [("error", .str e)]) hok2 rfl rfl]
    rfl

/-- Claim C1, witness for the amended theorem at status 500 and 200 with
the error string "quota exceeded". -/
theorem c1_witness :
    finalView "admob" (.response 500 (.ok (.obj [("error", .str "quota exceeded")])))
      = ⟨"status error", "Polling failed: " ++ "quota exceeded", none⟩ ∧
    finalView "admob" (.response 200 (.ok (.obj [("error", .str "quota exceeded")])))
      = ⟨"status success", "Polling successful! Fetched 0 rows.",
          some (displayResults (.obj [("error", .str "quota exceeded")])
            ("admob" ++ "_report.json"))⟩ :=
  c1_error_field_only_non2xx "admob" 500 200 [("error", .str "quota exceeded")]
    "quota exceeded" rfl rfl rfl (by decide)

/-- Claim C2, counterexample: a date input whose identifier contains both
markers, such as x-end-date-start-date, contains the start-date marker yet
is seeded with the current date, not the current date minus 7 days,
because the end-date branch is tested first. -/
theorem c2_counterexample :
    strIncludes "x-end-date-start-date" "-start-date" = true ∧
    setDefaultDates 20000 [⟨"x-end-date-start-date", "date", "old"⟩]
      = [⟨"x-end-date-start-date", "date", formatDate 20000⟩] ∧
    ¬ formatDate 20000 = formatDate (20000 - 7) :=
  ⟨by decide, rfl, by decide⟩

/-- Claim C2, amended: after the seeding, a date-typed input whose
identifier contains the end-date marker holds the current date; one whose
identifier contains the start-date marker but not the end-date marker
holds the current date minus 7 days; an input matching neither convention,
or one that is not date-typed, is left untouched; and the seeding is the
elementwise application of this rule. -/
theorem c2_default_dates (today : Nat) (inp : FormInput) :
    (inp.type = "date" → strIncludes inp.id "-end-date" = true →
      seedOne today inp = { inp with value := formatDate today }) ∧
    (inp.type = "date" → strIncludes inp.id "-end-date" = false →
      strIncludes inp.id "-start-date" = true →
      seedOne today inp = { inp with value := formatDate (today - 7) }) ∧
    (strIncludes inp.id "-end-date" = false →
      strIncludes inp.id "-start-date" = false → seedOne today inp = inp) ∧
    (¬ inp.type = "date" → seedOne today inp = inp) ∧
    (∀ inputs : List FormInput,
      setDefaultDates today inputs = inputs.map (seedOne today)) := by
  refine ⟨?_, ?_, ?_, ?_, fun _ => rfl⟩
  · intro hd he
    simp [seedOne, hd, he]
  · intro hd he hs
    simp [seedOne, hd, he, hs]
  · intro he hs
    by_cases hd : inp.type = "date" <;> simp [seedOne, hd, he, hs]
  · intro hnd
    simp [seedOne, hnd]

/-- Claim C2, witness: a start-date input seeded on day 20000 receives the
formatted day 19993. -/
theorem c2_witness :
    seedOne 20000 ⟨"admob-start-date", "date", ""⟩
      = { (⟨"admob-start-date", "date", ""⟩ : FormInput) with
            value := formatDate (20000 - 7) } :=
  (c2_default_dates 20000 ⟨"admob-start-date", "date", ""⟩).2.1 rfl (by decide)
    (by decide)

/-- Claim C3, counterexample: the submit handler does not fail silently on
a missing DOM target: on a page with no status element the prologue throws
a TypeError (modelled as an error result) instead of being a no-op, while
createCheckboxes on the same empty page is a silent no-op. -/
theorem c3_counterexample :
    submitPrologue "admob" []
      = .error "TypeError: Cannot set properties of null setting className" ∧
    createCheckboxesE "admob-dimensions" ["DATE"] [] = .ok [] :=
  ⟨rfl, rfl⟩

/-- Claim C3, amended: createCheckboxes is a silent no-op when its target
container is missing (which is what an unknown provider id amounts to) and
never throws for any input; the submit handler, by contrast, throws when
the status element is missing instead of no-opping. -/
theorem c3_silent_noop (cid : String) (items : List String) (dom : Dom)
    (provider : String) (pageIds : List String) :
    (getElementById dom cid = none → createCheckboxesE cid items dom = .ok dom) ∧
    (∃ d, createCheckboxesE cid items dom = .ok d) ∧
    (pageIds.contains (provider ++ "-status") = false →
      ∃ m, submitPrologue provider pageIds = .error m) := by
  refine ⟨?_, ?_, ?_⟩
  · intro h
    unfold createCheckboxesE
    rw [h]
  · unfold createCheckboxesE
    cases getElementById dom cid
    · exact ⟨dom, rfl⟩
    · exact ⟨_, rfl⟩
  · intro h
    refine ⟨"TypeError: Cannot set properties of null setting className", ?_⟩
    unfold submitPrologue
    rw [h]
    rfl

/-- Claim C3, witness: rendering into a missing container on an empty page
is a no-op. -/
theorem c3_witness :
    createCheckboxesE "ghost-dimensions" ["DATE"] [] = .ok [] :=
  (c3_silent_noop "ghost-dimensions" ["DATE"] [] "admob" []).1 rfl

/-- Claim C4: for a form whose non-checkbox inputs carry the provider
prefix on their identifiers and whose derived keys are distinct and do not
collide with the dimensions or metrics entries, the assembled payload maps
the key obtained by stripping the provider prefix and replacing dashes
with underscores to the input's string value, and it always contains
dimensions and metrics bound to the arrays of checked checkbox values,
possibly empty. -/
theorem c4_payload_assembly (provider : String) (inputs : List FormInput)
    (dims mets : List Checkbox) (inp : FormInput)
    (hmem : inp ∈ inputs) (hnc : ¬ inp.type = "checkbox")
    (hpre : ((provider ++ "-").data).isPrefixOf inp.id.data = true)
    (hnodup : (ncKeys provider inputs).Nodup)
    (hdim : ¬ "dimensions" ∈ ncKeys provider inputs)
    (hmet : ¬ "metrics" ∈ ncKeys provider inputs) :
    payloadGet (buildPayload provider inputs dims mets)
        (keySpecStrip provider inp.id) = some (.str inp.value) ∧
    payloadGet (buildPayload provider inputs dims mets) "dimensions"
      = some (.arr (checkedValues dims)) ∧
    payloadGet (buildPayload provider inputs dims mets) "metrics"
      = some (.arr (checkedValues mets)) := by
  have hkeymem := mem_ncKeys provider inputs inp hmem hnc
  have hkdim : ¬ keyOf provider inp.id = "dimensions" := fun hh => hdim (hh ▸ hkeymem)
  have hkmet : ¬ keyOf provider inp.id = "metrics" := fun hh => hmet (hh ▸ hkeymem)
  unfold buildPayload collectInputs
  refine ⟨?_, ?_, ?_⟩
  · rw [← keyOf_eq_spec provider inp.id hpre]
    rw [payloadGet_objInsert_other _ _ _ _ hkmet,
      payloadGet_objInsert_other _ _ _ _ hkdim]
    exact collect_mem provider inp hnc inputs [] hmem hnodup
  · rw [payloadGet_objInsert_other _ _ _ _
      (by decide : ¬ ("dimensions" : String) = "metrics")]
    exact payloadGet_objInsert_self _ _ _
  · exact payloadGet_objInsert_self _ _ _

/-- Claim C4, witness: a gam form with a date input, a text input and a
checkbox, with one dimension and one metric checked and one dimension
unchecked. -/
theorem c4_witness :
    payloadGet
        (buildPayload "gam"
          [⟨"gam-start-date", "date", "2024-01-01"⟩,
           ⟨"gam-network-code", "text", "123"⟩,
           ⟨"gam-x", "checkbox", "on"⟩]
          [⟨"date", true⟩, ⟨"country_name", false⟩] [⟨"impressions", true⟩])
        (keySpecStrip "gam" "gam-network-code") = some (.str "123") ∧
    payloadGet
        (buildPayload "gam"
          [⟨"gam-start-date", "date", "2024-01-01"⟩,
           ⟨"gam-network-code", "text", "123"⟩,
           ⟨"gam-x", "checkbox", "on"⟩]
          [⟨"date", true⟩, ⟨"country_name", false⟩] [⟨"impressions", true⟩])
        "dimensions"
      = some (.arr (checkedValues [⟨"date", true⟩, ⟨"country_name", false⟩])) ∧
    payloadGet
        (buildPayload "gam"
          [⟨"gam-start-date", "date", "2024-01-01"⟩,
           ⟨"gam-network-code", "text", "123"⟩,
           ⟨"gam-x", "checkbox", "on"⟩]
          [⟨"date", true⟩, ⟨"country_name", false⟩] [⟨"impressions", true⟩])
        "metrics" = some (.arr (checkedValues [⟨"impressions", true⟩])) :=
  c4_payload_assembly "gam"
    [⟨"gam-start-date", "date", "2024-01-01"⟩,
     ⟨"gam-network-code", "text", "123"⟩,
     ⟨"gam-x", "checkbox", "on"⟩]
    [⟨"date", true⟩, ⟨"country_name", false⟩] [⟨"impressions", true⟩]
    ⟨"gam-network-code", "text", "123"⟩
    (by decide) (by decide) (by decide) (by decide) (by decide) (by decide)

/-- Claim C5: a 2xx submission whose body is an object with a data array
displays the array's length as the row count with the success message and
renders the download link and pre block; a 2xx submission whose body is a
bare array does the same with the array's own length. -/
theorem c5_success_rendering (provider : String) (status : Nat)
    (fields : List (String × Json)) (rows rows2 : List Json)
    (hok : respOk status = true)
    (hdata : lookupField fields "data" = some (.arr rows)) :
    finalView provider (.response status (.ok (.obj fields)))
      = ⟨"status success",
          "Polling successful! Fetched " ++ toString rows.length ++ " rows.",
          some (displayResults (.obj fields) (provider ++ "_report.json"))⟩ ∧
    finalView provider (.response status (.ok (.arr rows2)))
      = ⟨"status success",
          "Polling successful! Fetched " ++ toString rows2.length ++ " rows.",
          some (displayResults (.arr rows2) (provider ++ "_report.json"))⟩ := by
  constructor
  · unfold finalView
    rw [pollOutcome_dataArr status fields rows hok hdata]
    rfl
  · unfold finalView
    rw [pollOutcome_bareArr status rows2 hok]
    rfl

/-- Claim C5, witness: the two spec scenarios, a 200 response with a
two-row data object and a 200 response with a bare three-element array. -/
theorem c5_witness :
    finalView "admob"
        (.response 200
          (.ok (.obj [("data", .arr [.obj [("a", .num 1)], .obj [("a", .num 2)]])])))
      = ⟨"status success",
          "Polling successful! Fetched "
            ++ toString ([Json.obj [("a", .num 1)], Json.obj [("a", .num 2)]]).length
            ++ " rows.",
          some (displayResults
            (.obj [("data", .arr [.obj [("a", .num 1)], .obj [("a", .num 2)]])])
            ("admob" ++ "_report.json"))⟩ ∧
    finalView "admob" (.response 200 (.ok (.arr [.num 1, .num 2, .num 3])))
      = ⟨"status success",
          "Polling successful! Fetched "
            ++ toString ([Json.num 1, Json.num 2, Json.num 3]).length ++ " rows.",
          some (displayResults (.arr [.num 1, .num 2, .num 3])
            ("admob" ++ "_report.json"))⟩ :=
  c5_success_rendering "admob" 200
    [("data", .arr [.obj [("a", .num 1)], .obj [("a", .num 2)]])]
    [.obj [("a", .num 1)], .obj [("a", .num 2)]]
    [.num 1, .num 2, .num 3] rfl rfl

/-- Claim C6: every failed submission, whether a network failure, a
malformed JSON body, or a non-2xx response, sets the status text to
"Polling failed: " followed by the message, preferring the body's error
field for a non-2xx response and falling back to the generic status
message, and leaves the results area empty. -/
theorem c6_failure_rendering (provider m : String) (status : Nat)
    (fields gfields : List (String × Json)) (e : String)
    (hbad : respOk status = false)
    (herr : lookupField fields "error" = some (.str e)) (hne : ¬ e = "")
    (hgerr : lookupField gfields "error" = none) :
    finalView provider (.networkError m)
      = ⟨"status error", "Polling failed: " ++ m, none⟩ ∧
    finalView provider (.response status (.error m))
      = ⟨"status error", "Polling failed: " ++ m, none⟩ ∧
    finalView provider (.response status (.ok (.obj fields)))
      = ⟨"status error", "Polling failed: " ++ e, none⟩ ∧
    finalView provider (.response status (.ok (.obj gfields)))
      = ⟨"status error",
          "Polling failed: " ++ ("Server responded with status " ++ toString status),
          none⟩ := by
  refine ⟨rfl, rfl, ?_, ?_⟩
  · unfold finalView
    rw [pollOutcome_errField status fields e hbad herr hne]
  · unfold finalView
    rw [pollOutcome_noErrField status gfields hbad hgerr]

/-- Claim C6, witness: a network failure, a parse failure, the spec's 500
response with the quota-exceeded error body, and a 500 response with an
empty object body. -/
theorem c6_witness :
    finalView "admob" (.networkError "Failed to fetch")
      = ⟨"status error", "Polling failed: " ++ "Failed to fetch", none⟩ ∧
    finalView "admob" (.response 500 (.error "Failed to fetch"))
      = ⟨"status error", "Polling failed: " ++ "Failed to fetch", none⟩ ∧
    finalView "admob" (.response 500 (.ok (.obj [("error", .str "quota exceeded")])))
      = ⟨"status error", "Polling failed: " ++ "quota exceeded", none⟩ ∧
    finalView "admob" (.response 500 (.ok (.obj [])))
      = ⟨"status error",
          "Polling failed: " ++ ("Server responded with status " ++ toString 500),
          none⟩ :=
  c6_failure_rendering "admob" "Failed to fetch" 500
    [("error", .str "quota exceeded")] [] "quota exceeded" rfl rfl (by decide) rfl

/-- Claim C7: after any nonempty sequence of tab clicks on panes whose ids
match each clicked tab exactly once, exactly one pane carries the active
class and the final state is the one produced by clicking the last button
alone, that is the pane corresponding to the most recently clicked button
is the active one. -/
theorem c7_tab_invariant (panes : List Pane) (ts : List String) (last : String)
    (_hinit : activeCount panes = 1)
    (hts : ∀ t ∈ ts, idCount panes t = 1)
    (hlast : ts.getLast? = some last) :
    activeCount (clickSeq ts panes) = 1 ∧
    clickSeq ts panes = clickTab last panes := by
  have heq := clickSeq_eq last ts panes hlast
  refine ⟨?_, heq⟩
  rw [heq, activeCount_clickTab]
  have h1 : last ∈ ts.getLast? := Option.mem_def.mpr hlast
  obtain ⟨hne, hx⟩ := List.mem_getLast?_eq_getLast h1
  exact hts last (hx ▸ List.getLast_mem hne)

/-- Claim C7, witness: three clicks over two panes starting from the first
pane active. -/
theorem c7_witness :
    activeCount (clickSeq ["gam", "admob", "gam"]
        [⟨"admob", true⟩, ⟨"gam", false⟩]) = 1 ∧
    clickSeq ["gam", "admob", "gam"] [⟨"admob", true⟩, ⟨"gam", false⟩]
      = clickTab "gam" [⟨"admob", true⟩, ⟨"gam", false⟩] :=
  c7_tab_invariant [⟨"admob", true⟩, ⟨"gam", false⟩] ["gam", "admob", "gam"] "gam"
    (by decide) (by decide) (by decide)

/-- Claim C8, counterexample: the rendered display text is not equal to
the field name with underscores replaced by spaces: it carries a leading
space, as for the field AD_UNIT whose label text is " AD UNIT". -/
theorem c8_counterexample :
    (mkContents "admob-dimensions" ["AD_UNIT"]).labels
      = [⟨"AD_UNIT", true, " AD UNIT"⟩] ∧
    ¬ (" AD UNIT" = underscoresToSpaces "AD_UNIT") :=
  ⟨rfl, by decide⟩

/-- Claim C8, amended: rendering a field list produces exactly one
checkbox per field name, each initially checked, with its value the
original field name and its display text a single space followed by the
field name with underscores replaced by spaces; in particular the rendered
count equals the list's length and every rendered value is a member of the
list, and this holds for every provider of the registry. -/
theorem c8_checkbox_render :
    (∀ (cid : String) (items : List String),
      (mkContents cid items).labels.map LabelC.value = items ∧
      ((mkContents cid items).labels.all LabelC.checked) = true ∧
      (mkContents cid items).labels.map LabelC.text
        = items.map (fun it => " " ++ underscoresToSpaces it) ∧
      (mkContents cid items).labels.length = items.length) ∧
    (definitions.all (fun pc =>
      ((mkContents (pc.1 ++ "-dimensions") pc.2.dimensions).labels.map LabelC.value
          == pc.2.dimensions) &&
      ((mkContents (pc.1 ++ "-metrics") pc.2.metrics).labels.map LabelC.value
          == pc.2.metrics))) = true := by
  constructor
  · intro cid items
    refine ⟨?_, ?_, ?_, ?_⟩
    · show (items.map mkLabel).map LabelC.value = items
      induction items with
      | nil => rfl
      | cons x xs ih => simp [mkLabel, ih]
    · show ((items.map mkLabel).all LabelC.checked) = true
      induction items with
      | nil => rfl
      | cons x xs ih => simp [mkLabel, ih]
    · show (items.map mkLabel).map LabelC.text
        = items.map (fun it => " " ++ underscoresToSpaces it)
      induction items with
      | nil => rfl
      | cons x xs ih => simp [mkLabel, ih]
    · show (items.map mkLabel).length = items.length
      simp
  · decide

/-- Claim C9: rendering the checkboxes for the same container and field
list twice in sequence leaves exactly the panel contents a single render
leaves, since each render replaces the panel contents wholesale. -/
theorem c9_render_idempotent (cid : String) (items : List String) (dom : Dom) :
    createCheckboxes cid items (createCheckboxes cid items dom)
      = createCheckboxes cid items dom := by
  cases h : getElementById dom cid with
  | none =>
      have hinner : createCheckboxes cid items dom = dom := by
        unfold createCheckboxes createCheckboxesE
        rw [h]
      rw [hinner, hinner]
  | some c =>
      have hinner : createCheckboxes cid items dom
          = setContents dom cid (mkContents cid items) := by
        unfold createCheckboxes createCheckboxesE
        rw [h]
      rw [hinner]
      have h2 := getElementById_setContents cid (mkContents cid items) dom c h
      unfold createCheckboxes createCheckboxesE
      rw [h2]
      exact setContents_setContents cid (mkContents cid items) dom

/-- Claim C10, counterexample: a 200 response whose body is an object
whose data field is itself an object (not an array) containing a two-row
data array is counted as 2 rows, not 0: the claim's zero-row prediction
fails for it. -/
theorem c10_counterexample :
    finalView "admob"
        (.response 200 (.ok (.obj [("data", .obj [("data", .arr [.num 1, .num 2])])])))
      = ⟨"status success", "Polling successful! Fetched 2 rows.",
          some (displayResults (.obj [("data", .obj [("data", .arr [.num 1, .num 2])])])
            "admob_report.json")⟩ ∧
    ¬ ("Polling successful! Fetched 2 rows." = "Polling successful! Fetched 0 rows.") :=
  ⟨rfl, by decide⟩

/-- Claim C10, amended: a 2xx submission whose decoded body is non-null,
not an array, and without a truthy data field (for example a plain object
like an ok flag) is not treated as an error: the row count is 0, the
status becomes the zero-row success message, and the full response is
rendered with the download link. -/
theorem c10_flat_zero_rows (provider : String) (status : Nat) (j : Json)
    (hok : respOk status = true) (harr : isArrJ j = false)
    (hdf : truthyDataField j = false) :
    finalView provider (.response status (.ok j))
      = ⟨"status success", "Polling successful! Fetched 0 rows.",
          some (displayResults j (provider ++ "_report.json"))⟩ := by
  unfold finalView
  rw [pollOutcome_flat status j hok harr hdf]
  rfl

/-- Claim C10, witness: a 200 response with the body being the object with
a single ok flag. -/
theorem c10_witness :
    finalView "admob" (.response 200 (.ok (.obj [("ok", .bool true)])))
      = ⟨"status success", "Polling successful! Fetched 0 rows.",
          some (displayResults (.obj [("ok", .bool true)]) ("admob" ++ "_report.json"))⟩ :=
  c10_flat_zero_rows "admob" 200 (.obj [("ok", .bool true)]) rfl rfl rfl

end ManualPollingTool
